import Mathlib

/-!
Shallow embedding of the mp4-to-mp3 CLI converter
(`src/mp4_to_mp3/cli.py`, with `src/mp4_to_mp3.py` as the legacy variant).

The external world (filesystem, ffprobe/ffmpeg subprocesses, interactive
prompt answers) is modelled by an explicit `World` record of oracles; all
program logic (extension filtering, sorting, probe-output parsing, mode
resolution, command construction, the per-file loop) is translated
directly from the Python source. Python `sorted` over paths is modelled
by insertion sort with respect to the path-string order, and the ASCII
case maps stand in for `str.lower`/`str.upper`.
-/

/-- JSON values as produced by `json.loads` on ffprobe output. -/
inductive JsonVal where
  | null
  | bool (b : Bool)
  | num (n : Int)
  | str (s : String)
  | arr (xs : List JsonVal)
  | obj (fields : List (String × JsonVal))

/-- Python truthiness (`bool(x)`) of a JSON-decoded value. -/
def jtruthy : JsonVal → Bool
  | .null => false
  | .bool b => b
  | .num n => n != 0
  | .str s => s != ""
  | .arr xs => !xs.isEmpty
  | .obj fs => !fs.isEmpty

/-- Dict fields of a JSON value; `none` models the `AttributeError` raised
by `.get` on a non-dict (caught by the surrounding `except`). -/
def asObj? : JsonVal → Option (List (String × JsonVal))
  | .obj fs => some fs
  | _ => none

/-- String content of a JSON value, if it is a string. -/
def asStr? : JsonVal → Option String
  | .str s => some s
  | _ => none

/-- Python `int(x)` on a JSON-decoded value; `none` models the exception
raised for unparsable strings and non-numeric types. -/
def pyInt? : JsonVal → Option Int
  | .num n => some n
  | .bool b => some (if b then 1 else 0)
  | .str s => s.toInt?
  | _ => none

/-- A filesystem path, as its list of components. -/
abbrev FsPath := List String

/-- The string form of a path (what `str(path)` interpolates). -/
def pathStr (p : FsPath) : String := String.intercalate "/" p

/-- ASCII lowercasing, the `str.lower` of the strings this tool handles. -/
def strLower (s : String) : String := String.mk (s.data.map Char.toLower)

/-- ASCII uppercasing, the `str.upper` used for the mode tag in logs. -/
def strUpper (s : String) : String := String.mk (s.data.map Char.toUpper)

/-- Index of the last '.' in a character list, if any. -/
def lastDot : List Char → Option Nat
  | [] => none
  | c :: cs =>
    match lastDot cs with
    | some i => some (i + 1)
    | none => if c = '.' then some 0 else none

/-- Python `pathlib.PurePath.suffix` of a file name: the extension of the
final component including the dot, empty when the name has no dot, starts
with its only dot, or ends with its last dot. -/
def pySuffix (name : String) : String :=
  let cs := name.toList
  match lastDot cs with
  | some i => if 0 < i ∧ i < cs.length - 1 then String.mk (cs.drop i) else ""
  | none => ""

/-- Python `pathlib.PurePath.stem`: the final component minus its suffix. -/
def pyStem (name : String) : String :=
  let cs := name.toList
  match lastDot cs with
  | some i => if 0 < i ∧ i < cs.length - 1 then String.mk (cs.take i) else name
  | none => name

/-- Final component of a path (`path.name`). -/
def lastComp (p : FsPath) : String := p.getLast?.getD ""

/-- Suffix of the final component of a path (`path.suffix`). -/
def fsSuffix (p : FsPath) : String := pySuffix (lastComp p)

/-- Recognized video extensions, `VIDEO_EXTS` in the source. -/
def VIDEO_EXTS : List String := [".mp4", ".m4v", ".mov"]

/-- Snapshot of the filesystem: the existing regular files and directories. -/
structure FileSys where
  files : List FsPath
  dirs : List FsPath

def FileSys.isFile (fs : FileSys) (p : FsPath) : Bool := decide (p ∈ fs.files)

def FileSys.isDir (fs : FileSys) (p : FsPath) : Bool := decide (p ∈ fs.dirs)

/-- Direct-child relation between a directory and a path. -/
def childOf (dir p : FsPath) : Bool :=
  decide (p.length = dir.length + 1) && decide (p.take dir.length = dir)

/-- Strict-descendant relation (what `dir.rglob` with pattern `*` ranges over). -/
def underDir (dir p : FsPath) : Bool :=
  decide (dir.length < p.length) && decide (p.take dir.length = dir)

/-- Python `iterdir`: the direct children of a directory. -/
def FileSys.iterdir (fs : FileSys) (dir : FsPath) : List FsPath :=
  (fs.dirs ++ fs.files).filter (childOf dir)

/-- Python `rglob` with pattern `*`: every descendant of a directory. -/
def FileSys.rglob (fs : FileSys) (dir : FsPath) : List FsPath :=
  (fs.dirs ++ fs.files).filter (underDir dir)

/-- Membership of a lowercased suffix in `VIDEO_EXTS`. -/
def hasVideoExt (p : FsPath) : Bool := decide (strLower (fsSuffix p) ∈ VIDEO_EXTS)

/-- Function `iter_inputs` from `cli.py`: directory scan filtered by
`p.is_file() and p.suffix.lower() in VIDEO_EXTS`; a non-directory input is
yielded as-is. -/
def iter_inputs (fs : FileSys) (in_path : FsPath) (recursive : Bool) : List FsPath :=
  if fs.isDir in_path then
    if recursive then
      (fs.rglob in_path).filter (fun p => fs.isFile p && hasVideoExt p)
    else
      (fs.iterdir in_path).filter (fun p => fs.isFile p && hasVideoExt p)
  else
    [in_path]

/-- Lexicographic comparison of character sequences by code point, the
order Python string comparison uses. -/
def charListLe : List Char → List Char → Bool
  | [], _ => true
  | _ :: _, [] => false
  | a :: as, b :: bs =>
    if a.toNat < b.toNat then true
    else if b.toNat < a.toNat then false
    else charListLe as bs

/-- Order of `sorted` over paths: Python compares the path strings. -/
def pathLe (p q : FsPath) : Bool := charListLe (pathStr p).data (pathStr q).data

/-- Candidate list built in `main`: `sorted(iter_inputs(...))` re-filtered
by `f.is_file() and f.suffix.lower() in VIDEO_EXTS`. Python `sorted` over
paths compares their strings; it is modelled by insertion sort under that
order. -/
def collectFiles (fs : FileSys) (in_path : FsPath) (recursive : Bool) : List FsPath :=
  ((iter_inputs fs in_path recursive).insertionSort
      (fun a b => pathLe a b = true)).filter
    (fun f => fs.isFile f && hasVideoExt f)

/-- Dataclass `ProbeInfo`: all fields default to `None`. -/
structure ProbeInfo where
  codec_name : Option String := none
  bit_rate : Option Int := none
  channels : Option Int := none
  sample_rate : Option Int := none
deriving DecidableEq

/-- Models `int(s[k]) if s.get(k) else None` inside the probe try block:
`some none` for an absent or falsy field, `none` (exception) when `int`
raises, `some (some n)` otherwise. -/
def pyOptInt (sf : List (String × JsonVal)) (k : String) : Option (Option Int) :=
  match sf.lookup k with
  | none => some none
  | some v => if jtruthy v then (pyInt? v).map some else some none

/-- Body of the `try` block of `ffprobe_audio_info`, on already-decoded
JSON: `none` is an exception escaping to the `except` handler. -/
def parseProbe (data : JsonVal) : Option ProbeInfo := do
  let fields ← asObj? data
  let streams : JsonVal :=
    match fields.lookup "streams" with
    | none => .arr []
    | some v => if jtruthy v then v else .arr []
  if jtruthy streams = false then
    return {}
  else
    match streams with
    | .arr (s :: _) => do
      let sf ← asObj? s
      let bit_rate ← pyOptInt sf "bit_rate"
      let channels ← pyOptInt sf "channels"
      let sample_rate ← pyOptInt sf "sample_rate"
      return { codec_name := ((sf.lookup "codec_name").bind asStr?)
               bit_rate, channels, sample_rate }
    | _ => none

/-- Function `ffprobe_audio_info` from `cli.py`, over the outcome of
`json.loads(subprocess.check_output(...))`: `none` means the process
failed or its output was malformed JSON (both raise into the `except`
branch); every exception inside the `try` yields `ProbeInfo()`. -/
def ffprobe_audio_info (probeOut : Option JsonVal) : ProbeInfo :=
  match probeOut with
  | none => {}
  | some data => (parseProbe data).getD {}

/-- Body of the `try` block of `has_audio_stream`:
`bool(data.get("streams"))`. -/
def parseHasAudio (data : JsonVal) : Option Bool := do
  let fields ← asObj? data
  return jtruthy ((fields.lookup "streams").getD .null)

/-- Function `has_audio_stream` from `cli.py`: `False` on process failure,
malformed output, or a falsy `streams` entry. -/
def has_audio_stream (probeOut : Option JsonVal) : Bool :=
  match probeOut with
  | none => false
  | some data => (parseHasAudio data).getD false

/-- Function `autodetect_mode` from `cli.py`, over the same probe outcome. -/
def autodetect_mode (probeOut : Option JsonVal) : String :=
  let info := ffprobe_audio_info probeOut
  let codec := strLower (info.codec_name.getD "")
  if codec = "mp3" then "copy"
  else if codec ≠ "" then "vbr"
  else "vbr"

/-- Per-file mode resolution in the loop of `main`: `file_mode = mode`,
replaced by `autodetect_mode(f)` when the mode is `auto`. -/
def resolve_file_mode (mode : String) (probeOut : Option JsonVal) : String :=
  if mode = "auto" then autodetect_mode probeOut else mode

/-- The ffmpeg argv built by `run_ffmpeg`, or the `SystemExit` message for
an unknown mode. The overwrite flag is appended as `-y`/`-n` and the
output path last. -/
def ffmpeg_cmd (input output : FsPath) (overwrite : Bool) (mode bitrate : String)
    (vbr_q : Int) : Except String (List String) :=
  let base := ["ffmpeg", "-hide_banner", "-nostats", "-i", pathStr input,
               "-vn", "-map", "0:a:0", "-map_metadata", "0"]
  let tail := [if overwrite then "-y" else "-n", pathStr output]
  if mode = "copy" then
    .ok (base ++ ["-c:a", "copy"] ++ tail)
  else if mode = "cbr" then
    .ok (base ++ ["-c:a", "libmp3lame", "-b:a", bitrate] ++ tail)
  else if mode = "vbr" then
    .ok (base ++ ["-c:a", "libmp3lame", "-q:a", toString vbr_q] ++ tail)
  else
    .error ("Unknown mode: " ++ mode)

/-- Observable actions of a run: a `print` to stdout or one execution of
the external ffmpeg process with the given argv. -/
inductive Event where
  | print (s : String)
  | ffmpegCall (cmd : List String)
deriving DecidableEq

/-- Validated key returned by `ask_choice` over the mode dict
`{"a": "AUTO", "c": "CBR", "v": "VBR"}`. -/
inductive ModeKey where
  | a
  | c
  | v

/-- Oracles for everything outside the program: the filesystem snapshot,
the decoded stdout of the two ffprobe invocations (`none` = process
failure or malformed JSON), the ffmpeg exit code per input file, and the
answers the interactive prompts would return after their validation
loops. -/
structure World where
  fs : FileSys
  probe : FsPath → Option JsonVal
  audioProbe : FsPath → Option JsonVal
  ffmpegExit : FsPath → Int
  recursiveAnswer : Bool
  modeAnswer : ModeKey

/-- Function `run_ffmpeg` from `cli.py`: build the argv (fatal on unknown
mode), run it, and raise `SystemExit` when the exit status is non-zero; on
success the executed argv is returned for the event log. -/
def run_ffmpeg (w : World) (input output : FsPath) (overwrite : Bool)
    (mode bitrate : String) (vbr_q : Int) : Except String (List String) :=
  match ffmpeg_cmd input output overwrite mode bitrate vbr_q with
  | .error e => .error e
  | .ok cmd =>
    if w.ffmpegExit input = 0 then .ok cmd
    else .error ("Conversion failed: " ++ pathStr input)

/-- Flags of one run, after `argparse` (`--mode` is constrained by
argparse to auto/cbr/vbr/copy; `vbr_q` is any `int`). -/
structure Args where
  input : FsPath
  out : Option FsPath
  mode : String := "auto"
  bitrate : String := "192k"
  vbr_q : Int := 2
  recursive : Bool := false
  overwrite : Bool := false
  no_prompt : Bool := false

/-- Configuration read by the per-file loop: the resolved global mode plus
the flags it reads from `args`. -/
structure Config where
  mode : String
  bitrate : String
  vbr_q : Int
  overwrite : Bool

/-- Destination path: `(out_dir or f.parent) / (f.stem + ".mp3")`. -/
def outFileFor (out_dir : Option FsPath) (f : FsPath) : FsPath :=
  (out_dir.getD f.dropLast) ++ [pyStem (lastComp f) ++ ".mp3"]

/-- Outcome of one loop iteration: the events it emitted, the `SystemExit`
message if it raised one, and the output files created so far (a
successful conversion makes its destination exist for later iterations). -/
structure StepResult where
  events : List Event
  fatal : Option String
  created : List FsPath

/-- One iteration of the loop in `main` over file `f`. -/
def processFile (w : World) (cfg : Config) (out_dir : Option FsPath)
    (created : List FsPath) (f : FsPath) : StepResult :=
  let out_file := outFileFor out_dir f
  if (w.fs.isFile out_file || decide (out_file ∈ created)) && !cfg.overwrite then
    { events := [.print ("Skip (exists): " ++ pathStr out_file)],
      fatal := none, created }
  else
    let file_mode := resolve_file_mode cfg.mode (w.probe f)
    let convEv := Event.print ("Converting: " ++ pathStr f ++ " -> " ++
      pathStr out_file ++ " [" ++ strUpper file_mode ++ "]")
    if !has_audio_stream (w.audioProbe f) then
      { events := [convEv, .print "  No audio stream found, skipping."],
        fatal := none, created }
    else
      match run_ffmpeg w f out_file cfg.overwrite file_mode cfg.bitrate cfg.vbr_q with
      | .error e => { events := [convEv], fatal := some e, created }
      | .ok cmd =>
        { events := [convEv, .ffmpegCall cmd, .print "OK"],
          fatal := none, created := out_file :: created }

/-- Loop of `main` over the candidate files: a raised `SystemExit` stops
the whole run; otherwise the next file is processed. -/
def processFiles (w : World) (cfg : Config) (out_dir : Option FsPath) :
    List FsPath → List FsPath → List Event × Option String
  | _, [] => ([], none)
  | created, f :: rest =>
    let r := processFile w cfg out_dir created f
    match r.fatal with
    | some e => (r.events, some e)
    | none =>
      let (evs, err) := processFiles w cfg out_dir r.created rest
      (r.events ++ evs, err)

/-- Mapping from the validated `ask_choice` key to the mode string, per
the dict in `main`. -/
def modeKeyStr : ModeKey → String
  | .a => "auto"
  | .c => "cbr"
  | .v => "vbr"

/-- Function `main` from `cli.py`: flag validation, recursive-prompt
resolution, file collection, empty check, mode-prompt resolution, then the
loop. Returns the events of the run and the `SystemExit` message if it
terminated fatally. -/
def mainRun (w : World) (args : Args) : List Event × Option String :=
  let in_path := args.input
  let out_dir := args.out
  if !(w.fs.isFile in_path || w.fs.isDir in_path) then
    ([], some ("Path not found: " ++ pathStr in_path))
  else if args.mode = "vbr" && !(decide (0 ≤ args.vbr_q) && decide (args.vbr_q ≤ 9)) then
    ([], some "--vbr-q must be between 0 and 9.")
  else
    let recursive :=
      if w.fs.isDir in_path && !args.recursive && !args.no_prompt then
        w.recursiveAnswer
      else args.recursive
    let files := collectFiles w.fs in_path recursive
    if files.isEmpty then
      ([], some ("No MP4/M4V/MOV files found in: " ++ pathStr in_path))
    else
      let mode :=
        if args.mode = "auto" && !args.no_prompt then modeKeyStr w.modeAnswer
        else args.mode
      processFiles w ⟨mode, args.bitrate, args.vbr_q, args.overwrite⟩ out_dir [] files

/-- Probe output reporting one audio stream, for the concrete runs below. -/
def audioJson : JsonVal := .obj [("streams", .arr [.obj [("index", .num 0)]])]

/-- Concrete world for the C1 run: one video file, ffprobe reporting an
audio stream, ffmpeg succeeding. -/
def wC1 : World :=
  { fs := { files := [["v.mp4"]], dirs := [] }
    probe := fun _ => none
    audioProbe := fun _ => some audioJson
    ffmpegExit := fun _ => 0
    recursiveAnswer := false
    modeAnswer := .a }

/-- Concrete flags: mode `cbr` with `--vbr-q 10` (out of range). -/
def argsC1 : Args :=
  { input := ["v.mp4"], out := none, mode := "cbr", vbr_q := 10, no_prompt := true }

/-- Concrete flags: mode `vbr` with `--vbr-q 10` (out of range). -/
def argsC1v : Args :=
  { input := ["v.mp4"], out := none, mode := "vbr", vbr_q := 10, no_prompt := true }

/-- Concrete world for the C2 run: a directory of two video files where
ffmpeg fails on the first one. -/
def wC2 : World :=
  { fs := { files := [["d", "a.mp4"], ["d", "b.mp4"]], dirs := [["d"]] }
    probe := fun _ => none
    audioProbe := fun _ => some audioJson
    ffmpegExit := fun p => if p = ["d", "a.mp4"] then 1 else 0
    recursiveAnswer := false
    modeAnswer := .a }

/-- Concrete flags for the C2 run. -/
def argsC2 : Args := { input := ["d"], out := none, mode := "cbr", no_prompt := true }

/-- Concrete filesystem for the C5 witness: a directory with matching and
non-matching entries and a subdirectory. -/
def fsC5 : FileSys :=
  { files := [["d", "b.mp4"], ["d", "a.MOV"], ["d", "x.txt"], ["d", "sub", "c.m4v"]]
    dirs := [["d"], ["d", "sub"]] }

/-- Concrete world for the C6 witness: the destination file exists. -/
def wC6 : World :=
  { fs := { files := [["a.mp4"], ["a.mp3"]], dirs := [] }
    probe := fun _ => none
    audioProbe := fun _ => some audioJson
    ffmpegExit := fun _ => 0
    recursiveAnswer := false
    modeAnswer := .a }

/-- Concrete world for the C7 witness: ffprobe reports zero audio streams. -/
def wC7 : World :=
  { fs := { files := [["a.mp4"]], dirs := [] }
    probe := fun _ => none
    audioProbe := fun _ => some (JsonVal.obj [("streams", JsonVal.arr [])])
    ffmpegExit := fun _ => 0
    recursiveAnswer := false
    modeAnswer := .a }

/-- Concrete world for the C9 witness: a single non-video file. -/
def wC9 : World :=
  { fs := { files := [["notes.txt"]], dirs := [] }
    probe := fun _ => none
    audioProbe := fun _ => none
    ffmpegExit := fun _ => 0
    recursiveAnswer := false
    modeAnswer := .a }

/-- Concrete flags for the C9 witness (all defaults). -/
def argsC9 : Args := { input := ["notes.txt"], out := none }

/-- Concrete world for the C10 witness: the audio probe fails outright. -/
def wC10 : World :=
  { fs := { files := [["a.mp4"]], dirs := [] }
    probe := fun _ => none
    audioProbe := fun _ => none
    ffmpegExit := fun _ => 0
    recursiveAnswer := false
    modeAnswer := .a }

/-- C1 counterexample: with `--mode cbr --vbr-q 10` (out of range) the run
does not terminate fatally; it scans, processes and converts the file. -/
theorem c1_counterexample :
    argsC1.mode = "cbr" ∧ argsC1.vbr_q = 10 ∧ ¬(0 ≤ argsC1.vbr_q ∧ argsC1.vbr_q ≤ 9) ∧
    (mainRun wC1 argsC1).2 = none ∧
    Event.ffmpegCall ["ffmpeg", "-hide_banner", "-nostats", "-i", "v.mp4", "-vn", "-map",
      "0:a:0", "-map_metadata", "0", "-c:a", "libmp3lame", "-b:a", "192k", "-n", "v.mp3"]
      ∈ (mainRun wC1 argsC1).1 := by
  refine ⟨rfl, rfl, by decide, by decide, by decide⟩

/-- C1 (amended): when the requested `--mode` is `vbr` and `--vbr-q` is
outside [0,9], the run terminates fatally with the range message before
any file is scanned or processed (no events are emitted). -/
theorem c1_vbrq_validation (w : World) (args : Args)
    (hmode : args.mode = "vbr")
    (hq : ¬(0 ≤ args.vbr_q ∧ args.vbr_q ≤ 9))
    (hex : (w.fs.isFile args.input || w.fs.isDir args.input) = true) :
    mainRun w args = ([], some "--vbr-q must be between 0 and 9.") := by
  have hq' : (decide (0 ≤ args.vbr_q) && decide (args.vbr_q ≤ 9)) = false := by
    rcases not_and_or.mp hq with h | h <;> simp [h]
  simp [mainRun, hex, hmode, hq']

/-- C1 witness: the amended validation at a concrete out-of-range run. -/
theorem c1_witness : mainRun wC1 argsC1v = ([], some "--vbr-q must be between 0 and 9.") :=
  c1_vbrq_validation wC1 argsC1v rfl (by decide) (by decide)

/-- C2 counterexample: a non-zero ffmpeg exit on the first file terminates
the whole run; the second candidate file is never processed. -/
theorem c2_counterexample :
    wC2.ffmpegExit ["d", "a.mp4"] ≠ 0 ∧
    mainRun wC2 argsC2 =
      ([Event.print "Converting: d/a.mp4 -> d/a.mp3 [CBR]"],
       some "Conversion failed: d/a.mp4") := by
  exact ⟨by decide, by decide⟩

/-- C2 (amended): a non-zero exit status of the external transcoding
process raises `SystemExit` with the conversion-failed message, aborting
the entire run; the remaining files are not processed. -/
theorem c2_failure_aborts (w : World) (cfg : Config) (od : Option FsPath)
    (created : List FsPath) (f : FsPath) (rest : List FsPath)
    (hguard : ((w.fs.isFile (outFileFor od f) || decide (outFileFor od f ∈ created))
      && !cfg.overwrite) = false)
    (haudio : has_audio_stream (w.audioProbe f) = true)
    (hmode : resolve_file_mode cfg.mode (w.probe f) = "copy" ∨
             resolve_file_mode cfg.mode (w.probe f) = "cbr" ∨
             resolve_file_mode cfg.mode (w.probe f) = "vbr")
    (hexit : w.ffmpegExit f ≠ 0) :
    processFiles w cfg od created (f :: rest) =
      ([Event.print ("Converting: " ++ pathStr f ++ " -> " ++ pathStr (outFileFor od f) ++
          " [" ++ strUpper (resolve_file_mode cfg.mode (w.probe f)) ++ "]")],
       some ("Conversion failed: " ++ pathStr f)) := by
  have hcmd : ∃ c, ffmpeg_cmd f (outFileFor od f) cfg.overwrite
      (resolve_file_mode cfg.mode (w.probe f)) cfg.bitrate cfg.vbr_q = .ok c := by
    rcases hmode with h | h | h <;> rw [h] <;> exact ⟨_, rfl⟩
  rcases hcmd with ⟨c, hc⟩
  simp [processFiles, processFile, hguard, haudio, run_ffmpeg, hc, hexit]

/-- C2 witness: the amended abort behaviour at a concrete two-file loop. -/
theorem c2_witness :
    processFiles wC2 ⟨"cbr", "192k", 2, false⟩ none [] [["d", "a.mp4"], ["d", "b.mp4"]] =
      ([Event.print "Converting: d/a.mp4 -> d/a.mp3 [CBR]"],
       some "Conversion failed: d/a.mp4") := by
  have h := c2_failure_aborts wC2 ⟨"cbr", "192k", 2, false⟩ none [] ["d", "a.mp4"]
    [["d", "b.mp4"]] (by decide) (by decide) (by decide) (by decide)
  simpa using h

/-- C3: `autodetect_mode` yields `copy` exactly when the probed codec
lowercases to the target codec name `mp3`, otherwise `vbr` (also on probe
failure), never `cbr`; explicit modes resolve to themselves independently
of any probe outcome. -/
theorem c3_mode_resolution :
    (∀ probeOut, (autodetect_mode probeOut = "copy" ↔
        strLower ((ffprobe_audio_info probeOut).codec_name.getD "") = "mp3") ∧
      autodetect_mode probeOut ≠ "cbr" ∧
      (autodetect_mode probeOut = "copy" ∨ autodetect_mode probeOut = "vbr")) ∧
    (∀ m p1 p2, m ≠ "auto" →
      resolve_file_mode m p1 = m ∧ resolve_file_mode m p1 = resolve_file_mode m p2) := by
  constructor
  · intro probeOut
    by_cases h : strLower ((ffprobe_audio_info probeOut).codec_name.getD "") = "mp3"
    · simp [autodetect_mode, h]
    · simp [autodetect_mode, h, ite_self]
  · intro m p1 p2 hm
    unfold resolve_file_mode
    simp [hm]

/-- C3 witness: an explicit `cbr` request passes through unchanged. -/
theorem c3_witness : resolve_file_mode "cbr" none = "cbr" :=
  (c3_mode_resolution.2 "cbr" none none (by decide)).1

/-- C4: the encoder argv per resolved mode — stream copy for `copy`,
`libmp3lame` with the bitrate for `cbr`, `libmp3lame` with the quality
level for `vbr`, a fatal configuration error for anything else — and the
overwrite flag always passed as `-y`/`-n`. -/
theorem c4_encoder_args (i o : FsPath) (ov : Bool) (b : String) (q : Int) :
    ffmpeg_cmd i o ov "copy" b q =
      .ok (["ffmpeg", "-hide_banner", "-nostats", "-i", pathStr i, "-vn", "-map", "0:a:0",
            "-map_metadata", "0", "-c:a", "copy", if ov then "-y" else "-n", pathStr o]) ∧
    ffmpeg_cmd i o ov "cbr" b q =
      .ok (["ffmpeg", "-hide_banner", "-nostats", "-i", pathStr i, "-vn", "-map", "0:a:0",
            "-map_metadata", "0", "-c:a", "libmp3lame", "-b:a", b,
            if ov then "-y" else "-n", pathStr o]) ∧
    ffmpeg_cmd i o ov "vbr" b q =
      .ok (["ffmpeg", "-hide_banner", "-nostats", "-i", pathStr i, "-vn", "-map", "0:a:0",
            "-map_metadata", "0", "-c:a", "libmp3lame", "-q:a", toString q,
            if ov then "-y" else "-n", pathStr o]) ∧
    (∀ m, m ≠ "copy" → m ≠ "cbr" → m ≠ "vbr" →
      ffmpeg_cmd i o ov m b q = .error ("Unknown mode: " ++ m)) := by
  refine ⟨rfl, rfl, rfl, ?_⟩
  intro m h1 h2 h3
  simp [ffmpeg_cmd, h1, h2, h3]

/-- C4 witness: the fatal configuration error at a concrete unknown mode. -/
theorem c4_witness :
    ffmpeg_cmd ["in.mp4"] ["out.mp3"] true "weird" "128k" 2 = .error "Unknown mode: weird" := by
  have h := (c4_encoder_args ["in.mp4"] ["out.mp3"] true "128k" 2).2.2.2 "weird"
    (by decide) (by decide) (by decide)
  simpa using h

/-- Totality of the lexicographic character order. -/
theorem charListLe_total : ∀ a b : List Char, charListLe a b = true ∨ charListLe b a = true
  | [], _ => Or.inl rfl
  | _ :: _, [] => Or.inr rfl
  | a :: as, b :: bs => by
    rcases Nat.lt_trichotomy a.toNat b.toNat with h | h | h
    · left
      simp [charListLe, h]
    · rcases charListLe_total as bs with ih | ih
      · left
        simp [charListLe, h, ih]
      · right
        simp [charListLe, h.symm, ih]
    · right
      simp [charListLe, h]

/-- Transitivity of the lexicographic character order. -/
theorem charListLe_trans : ∀ a b c : List Char,
    charListLe a b = true → charListLe b c = true → charListLe a c = true
  | [], _, _ => fun _ _ => rfl
  | _ :: _, [], _ => fun h _ => by simp [charListLe] at h
  | _ :: _, _ :: _, [] => fun _ h => by simp [charListLe] at h
  | a :: as, b :: bs, c :: cs => fun h1 h2 => by
    simp only [charListLe] at h1 h2 ⊢
    split at h1
    · rename_i hab
      split at h2
      · rename_i hbc
        simp [Nat.lt_trans hab hbc]
      · split at h2
        · simp at h2
        · rename_i hcb hbc
          have hbc' : b.toNat = c.toNat := by omega
          simp [hbc' ▸ hab]
    · split at h1
      · simp at h1
      · rename_i hba hab
        have hab' : a.toNat = b.toNat := by omega
        split at h2
        · rename_i hbc
          simp [hab' ▸ hbc]
        · split at h2
          · simp at h2
          · rename_i hcb hbc
            have hbc' : b.toNat = c.toNat := by omega
            rw [hab', hbc']
            simp [charListLe_trans as bs cs h1 h2]

/-- C5: for a directory input the candidate set holds exactly the files
with a recognized lowercased extension — the direct children, or all
descendants exactly when the recursive flag is set — and it is sorted
lexicographically by path string and free of duplicates. -/
theorem c5_candidate_set (fs : FileSys) (in_path : FsPath) (rec : Bool)
    (hdir : fs.isDir in_path = true)
    (hnodup : (fs.dirs ++ fs.files).Nodup) :
    (∀ p, p ∈ collectFiles fs in_path rec ↔
      p ∈ fs.files ∧ hasVideoExt p = true ∧
      (if rec then underDir in_path p = true else childOf in_path p = true)) ∧
    (collectFiles fs in_path rec).Pairwise (fun a b => pathLe a b = true) ∧
    (collectFiles fs in_path rec).Nodup := by
  refine ⟨?_, ?_, ?_⟩
  · intro p
    cases rec <;>
      simp [collectFiles, iter_inputs, hdir, FileSys.rglob, FileSys.iterdir,
        List.mem_filter, List.mem_insertionSort, FileSys.isFile] <;>
      tauto
  · haveI : IsTotal FsPath (fun a b => pathLe a b = true) :=
      ⟨fun a b => charListLe_total _ _⟩
    haveI : IsTrans FsPath (fun a b => pathLe a b = true) :=
      ⟨fun _ _ _ hab hbc => charListLe_trans _ _ _ hab hbc⟩
    exact List.Pairwise.filter _ (List.sorted_insertionSort _ _)
  · have h1 : (iter_inputs fs in_path rec).Nodup := by
      unfold iter_inputs
      rw [if_pos hdir]
      cases rec
      · rw [if_neg (by simp)]
        exact (hnodup.filter _).filter _
      · rw [if_pos rfl]
        exact (hnodup.filter _).filter _
    have h2 : ((iter_inputs fs in_path rec).insertionSort
        (fun a b => pathLe a b = true)).Nodup :=
      ((List.perm_insertionSort _ _).nodup_iff).mpr h1
    exact h2.filter _

/-- C5 witness: a concrete directory where the subdirectory file is
collected exactly under the recursive flag, and the set is duplicate-free. -/
theorem c5_witness :
    ["d", "sub", "c.m4v"] ∈ collectFiles fsC5 ["d"] true ∧
    ["d", "sub", "c.m4v"] ∉ collectFiles fsC5 ["d"] false ∧
    (collectFiles fsC5 ["d"] true).Nodup := by
  refine ⟨?_, ?_, (c5_candidate_set fsC5 ["d"] true (by decide) (by decide)).2.2⟩
  · exact ((c5_candidate_set fsC5 ["d"] true (by decide) (by decide)).1 _).mpr (by decide)
  · exact fun hmem =>
      absurd (((c5_candidate_set fsC5 ["d"] false (by decide) (by decide)).1 _).mp hmem)
        (by decide)

/-- C6: when the destination exists and overwrite is off, the file yields
exactly one skip message — no encoder invocation — and the loop continues
with the remaining files unchanged. -/
theorem c6_skip_existing (w : World) (cfg : Config) (od : Option FsPath)
    (created : List FsPath) (f : FsPath) (rest : List FsPath)
    (hex : (w.fs.isFile (outFileFor od f) || decide (outFileFor od f ∈ created)) = true)
    (hov : cfg.overwrite = false) :
    processFiles w cfg od created (f :: rest) =
      (Event.print ("Skip (exists): " ++ pathStr (outFileFor od f)) ::
        (processFiles w cfg od created rest).1,
       (processFiles w cfg od created rest).2) := by
  rcases hr : processFiles w cfg od created rest with ⟨evs, err⟩
  simp [processFiles, processFile, hex, hov, hr]

/-- C6 witness: a concrete file whose destination already exists is
skipped without any encoder invocation. -/
theorem c6_witness :
    processFiles wC6 ⟨"cbr", "192k", 2, false⟩ none [] [["a.mp4"]] =
      ([Event.print "Skip (exists): a.mp3"], none) := by
  have h := c6_skip_existing wC6 ⟨"cbr", "192k", 2, false⟩ none [] ["a.mp4"] []
    (by decide) rfl
  simpa using h

/-- C7: a file without an audio stream yields the converting line and a
distinct no-audio skip message — no encoder invocation, whatever the
resolved mode — and the loop continues; the no-audio message differs from
every existing-destination skip message. -/
theorem c7_skip_no_audio (w : World) (cfg : Config) (od : Option FsPath)
    (created : List FsPath) (f : FsPath) (rest : List FsPath)
    (hguard : ((w.fs.isFile (outFileFor od f) || decide (outFileFor od f ∈ created))
      && !cfg.overwrite) = false)
    (haudio : has_audio_stream (w.audioProbe f) = false) :
    (processFiles w cfg od created (f :: rest) =
      (Event.print ("Converting: " ++ pathStr f ++ " -> " ++ pathStr (outFileFor od f) ++
          " [" ++ strUpper (resolve_file_mode cfg.mode (w.probe f)) ++ "]") ::
        Event.print "  No audio stream found, skipping." ::
        (processFiles w cfg od created rest).1,
       (processFiles w cfg od created rest).2)) ∧
    (∀ s, ("  No audio stream found, skipping." : String) ≠ "Skip (exists): " ++ s) := by
  constructor
  · rcases hr : processFiles w cfg od created rest with ⟨evs, err⟩
    simp [processFiles, processFile, hguard, haudio, hr]
  · intro s h
    have h2 := congrArg String.data h
    rw [String.data_append] at h2
    simp [String.data] at h2

/-- C7 witness: a concrete file with zero audio streams is skipped with
the no-audio message under auto-resolved mode. -/
theorem c7_witness :
    processFiles wC7 ⟨"auto", "192k", 2, false⟩ none [] [["a.mp4"]] =
      ([Event.print "Converting: a.mp4 -> a.mp3 [VBR]",
        Event.print "  No audio stream found, skipping."], none) := by
  have h := (c7_skip_no_audio wC7 ⟨"auto", "192k", 2, false⟩ none [] ["a.mp4"] []
    (by decide) (by decide)).1
  simpa using h

/-- C8: the prober is total in its advisory role — process failure or
malformed output, a non-dict payload, a missing `streams` entry, and a
falsy `streams` entry (zero streams) all yield the all-null Probe Result
instead of an error. -/
theorem c8_probe_total :
    ffprobe_audio_info none = ⟨none, none, none, none⟩ ∧
    (∀ j, asObj? j = none → ffprobe_audio_info (some j) = ⟨none, none, none, none⟩) ∧
    (∀ fields, fields.lookup "streams" = none →
      ffprobe_audio_info (some (.obj fields)) = ⟨none, none, none, none⟩) ∧
    (∀ fields v, fields.lookup "streams" = some v → jtruthy v = false →
      ffprobe_audio_info (some (.obj fields)) = ⟨none, none, none, none⟩) := by
  refine ⟨rfl, ?_, ?_, ?_⟩
  · intro j hj
    simp [ffprobe_audio_info, parseProbe, hj]
  · intro fields hf
    simp [ffprobe_audio_info, parseProbe, asObj?, hf, jtruthy, List.isEmpty]
  · intro fields v hf hv
    simp [ffprobe_audio_info, parseProbe, asObj?, hf, hv]
    simp [jtruthy]

/-- C8 witness: malformed (non-dict) probe output yields the all-null
record. -/
theorem c8_witness :
    ffprobe_audio_info (some (JsonVal.str "garbage")) = ⟨none, none, none, none⟩ :=
  c8_probe_total.2.1 (JsonVal.str "garbage") rfl

/-- C9: a single-file input is produced as a one-element sequence by
`iter_inputs` regardless of extension; with an unrecognized extension the
candidate set filters to empty and the run fails fatally with a message
naming the scanned path. -/
theorem c9_single_file (w : World) (args : Args)
    (hfile : w.fs.isFile args.input = true)
    (hnotdir : w.fs.isDir args.input = false)
    (hext : hasVideoExt args.input = false)
    (hvbrq : args.mode = "vbr" → 0 ≤ args.vbr_q ∧ args.vbr_q ≤ 9) :
    (∀ (p : FsPath) (r : Bool), w.fs.isDir p = false → iter_inputs w.fs p r = [p]) ∧
    mainRun w args = ([], some ("No MP4/M4V/MOV files found in: " ++ pathStr args.input)) := by
  have hiter : ∀ (p : FsPath) (r : Bool), w.fs.isDir p = false →
      iter_inputs w.fs p r = [p] := by
    intro p r hp
    simp [iter_inputs, hp]
  refine ⟨hiter, ?_⟩
  have hiter' := hiter args.input args.recursive hnotdir
  have hguard2 : (decide (args.mode = "vbr")
      && !(decide (0 ≤ args.vbr_q) && decide (args.vbr_q ≤ 9))) = false := by
    by_cases hm : args.mode = "vbr"
    · have hb := hvbrq hm
      simp [hm, hb.1, hb.2]
    · simp [hm]
  have hcoll : collectFiles w.fs args.input args.recursive = [] := by
    simp [collectFiles, hiter', hext]
  simp [mainRun, hfile, hnotdir, hguard2, hcoll]
  intro hm hrange
  rcases hvbrq hm with ⟨h1, h2⟩
  omega

/-- C9 witness: a single `.txt` input file ends in the fatal
no-files-found message naming the path. -/
theorem c9_witness :
    mainRun wC9 argsC9 = ([], some "No MP4/M4V/MOV files found in: notes.txt") := by
  have h := (c9_single_file wC9 argsC9 (by decide) (by decide) (by decide) (by decide)).2
  simpa using h

/-- C10: the boolean audio check is false on probe process failure or
malformed output, on a non-dict payload, and on an absent or empty
`streams` array; a file whose audio probe fails outright is therefore
skipped with the no-audio message and the run continues. -/
theorem c10_audio_check :
    has_audio_stream none = false ∧
    (∀ j, asObj? j = none → has_audio_stream (some j) = false) ∧
    (∀ fields, fields.lookup "streams" = none ∨ fields.lookup "streams" = some (.arr []) →
      has_audio_stream (some (.obj fields)) = false) ∧
    (∀ (w : World) (cfg : Config) (od : Option FsPath) (created : List FsPath)
        (f : FsPath) (rest : List FsPath),
      w.audioProbe f = none →
      ((w.fs.isFile (outFileFor od f) || decide (outFileFor od f ∈ created))
        && !cfg.overwrite) = false →
      processFiles w cfg od created (f :: rest) =
        (Event.print ("Converting: " ++ pathStr f ++ " -> " ++ pathStr (outFileFor od f) ++
            " [" ++ strUpper (resolve_file_mode cfg.mode (w.probe f)) ++ "]") ::
          Event.print "  No audio stream found, skipping." ::
          (processFiles w cfg od created rest).1,
         (processFiles w cfg od created rest).2)) := by
  refine ⟨rfl, ?_, ?_, ?_⟩
  · intro j hj
    simp [has_audio_stream, parseHasAudio, hj]
  · intro fields hf
    rcases hf with hf | hf <;>
      simp [has_audio_stream, parseHasAudio, asObj?, hf, jtruthy, List.isEmpty]
  · intro w cfg od created f rest hp hguard
    rcases hr : processFiles w cfg od created rest with ⟨evs, err⟩
    simp [processFiles, processFile, hguard, hp, has_audio_stream, hr]

/-- C10 witness: a concrete file whose audio probe fails is skipped as
having no audio and the run does not abort. -/
theorem c10_witness :
    processFiles wC10 ⟨"cbr", "192k", 2, false⟩ none [] [["a.mp4"]] =
      ([Event.print "Converting: a.mp4 -> a.mp3 [CBR]",
        Event.print "  No audio stream found, skipping."], none) := by
  have h := c10_audio_check.2.2.2 wC10 ⟨"cbr", "192k", 2, false⟩ none [] ["a.mp4"] []
    rfl (by decide)
  simpa using h
